import Mathlib

/-!
# go-web-template: configuration loader and connection factory

A shallow embedding of `internal/config/config.go`, `internal/database/db.go`
and `cmd/server/main.go`, followed by the properties established about them.

The two libraries the program calls (the configuration provider and the
database opener) are not part of the program; their calls appear here as
parameters, and every backend open call is recorded in a trace.
-/

namespace GoWebTemplate

/-! ## Data model (`internal/config/config.go`) -/

/-- The `ServerConfig` struct. -/
structure ServerConfig where
  Address : String
deriving DecidableEq, Repr

/-- The `DatabaseConfig` struct; `Port` is a Go `int`. -/
structure DatabaseConfig where
  Driver : String
  Host : String
  Port : Int
  User : String
  Password : String
  DBName : String
  TimeZone : String
  SSLMode : String
deriving DecidableEq, Repr

/-- The `Config` struct. -/
structure Config where
  Server : ServerConfig
  Database : DatabaseConfig
deriving DecidableEq, Repr

/-- The zero value of `Config`, as produced by `var config Config`. -/
def Config.zero : Config :=
  { Server := { Address := "" },
    Database := { Driver := "", Host := "", Port := 0, User := "", Password := "",
                  DBName := "", TimeZone := "", SSLMode := "" } }

/-! ## Go errors and `fmt` -/

/-- Go `error` values that occur in the program: the ones `fmt.Errorf` builds
(with or without a `%w` operand), the provider's `ConfigFileNotFoundError`, and
any other error a library hands back. -/
inductive GoError where
  | errorString (msg : String)
  | wrapError (msg : String) (cause : GoError)
  | configFileNotFound (msg : String)
  | foreign (msg : String)
deriving DecidableEq, Repr

/-- The `Error()` method. -/
def GoError.Error : GoError → String
  | .errorString m => m
  | .wrapError m _ => m
  | .configFileNotFound m => m
  | .foreign m => m

/-- The `Unwrap()` result: the cause a `%w` verb attached, if any. -/
def GoError.Unwrap : GoError → Option GoError
  | .wrapError _ c => some c
  | _ => none

/-- Operands of the formatting calls in the program. -/
inductive Arg where
  | str (s : String)
  | int (i : Int)
  | err (e : GoError)
deriving DecidableEq, Repr

/-- Decimal rendering of a Go `int`, as the `%d` verb prints it. -/
def decimal (i : Int) : String :=
  if i < 0 then "-" ++ Nat.repr i.natAbs else Nat.repr i.natAbs

/-- One verb applied to one operand. The program only uses `%s` on strings,
`%d` on ints and `%w` on errors. A pairing Go rejects is rendered as a bad-verb
marker (Go prints `%!verb(type=value)`); no call site of the program reaches
that case. -/
def fmtVerb : Char → Arg → List Char
  | 's', .str s => s.data
  | 'v', .str s => s.data
  | 'd', .int i => (decimal i).data
  | 'v', .int i => (decimal i).data
  | 'w', .err e => e.Error.data
  | 'v', .err e => e.Error.data
  | 's', .err e => e.Error.data
  | v, _ => ['%', '!', v, '(', 'B', 'A', 'D', ')']

/-- The formatting loop of `fmt.Sprintf` on the characters of the format:
a `%` followed by a verb consumes the next operand, `%%` prints a percent
sign, every other character is copied. Flags, widths and the reports for a
trailing `%` or for surplus operands are left out: the program's formats have
plain verbs only, one per operand. -/
def sprintfAux : List Char → List Arg → List Char
  | [], _ => []
  | [c], _ => [c]
  | c :: v :: rest, args =>
    if c = '%' then
      if v = '%' then '%' :: sprintfAux rest args
      else
        match args with
        | a :: args' => fmtVerb v a ++ sprintfAux rest args'
        | [] => ['%', '!', v, '(', 'M', 'I', 'S', 'S', 'I', 'N', 'G', ')'] ++ sprintfAux rest []
    else c :: sprintfAux (v :: rest) args

/-- Model of `fmt.Sprintf`. -/
def Sprintf (format : String) (args : List Arg) : String :=
  ⟨sprintfAux format.data args⟩

/-- The operand bound to the first `%w` verb of a format, if there is one. -/
def wrapOperand : List Char → List Arg → Option GoError
  | [], _ => none
  | [_], _ => none
  | c :: v :: rest, args =>
    if c = '%' then
      if v = '%' then wrapOperand rest args
      else
        match args with
        | a :: args' =>
          if v = 'w' then
            match a with
            | .err e => some e
            | _ => wrapOperand rest args'
          else wrapOperand rest args'
        | [] => none
    else wrapOperand (v :: rest) args

/-- Model of `fmt.Errorf`: the message is the formatted text, and a `%w`
operand becomes the cause of the returned error. -/
def Errorf (format : String) (args : List Arg) : GoError :=
  match wrapOperand format.data args with
  | some e => .wrapError (Sprintf format args) e
  | none => .errorString (Sprintf format args)

/-! ## Configuration loader (`internal/config/config.go`) -/

/-- The calls the program makes on the provider's process-wide registry. -/
inductive ViperCall where
  | AddConfigPath (path : String)
  | SetConfigName (name : String)
  | SetConfigType (type : String)
  | SetEnvPrefix (pfx : String)
  | AutomaticEnv
  | SetEnvKeyReplacer (oldnew : List String)
deriving DecidableEq, Repr

/-- The configuration provider as the loader sees it: given the registry calls
made so far, `ReadInConfig` returns an error or nil, and `Unmarshal` fills the
target struct and returns an error or nil. -/
structure Provider where
  ReadInConfig : List ViperCall → Option GoError
  Unmarshal : List ViperCall → Config → Config × Option GoError

/-- The type assertion `err.(viper.ConfigFileNotFoundError)`. -/
def isConfigFileNotFound : GoError → Bool
  | .configFileNotFound _ => true
  | _ => false

/-- The six registry calls `LoadConfig` makes before reading, in order. -/
def registryCalls : List ViperCall :=
  [.AddConfigPath "./config", .SetConfigName "config", .SetConfigType "yaml",
   .SetEnvPrefix "APP", .AutomaticEnv, .SetEnvKeyReplacer [".", "_", "-", "_"]]

/-- Model of `LoadConfig`: the returned pair is `(*Config, error)`, with
`none` for nil. `reg` is the registry's call history before the call. -/
def LoadConfig (viper : Provider) (reg : List ViperCall) : Option Config × Option GoError :=
  let reg := reg ++ registryCalls
  match viper.ReadInConfig reg with
  | some err =>
    if isConfigFileNotFound err then
      (none, some (Errorf "config file not found at ./config/config.yaml" []))
    else
      (none, some (Errorf "error reading config file: %w" [.err err]))
  | none =>
    match viper.Unmarshal reg Config.zero with
    | (_, some err) => (none, some (Errorf "unable to decode config into struct: %w" [.err err]))
    | (config, none) => (some config, none)

/-! ## Connection factory (`internal/database/db.go`) -/

/-- The argument of `gorm.Open`: `mysql.Open(dsn)` or `postgres.Open(dsn)`. -/
inductive Dialector where
  | mysql (dsn : String)
  | postgres (dsn : String)
deriving DecidableEq, Repr

/-- The connection string a dialector carries. -/
def Dialector.dsn : Dialector → String
  | .mysql d => d
  | .postgres d => d

/-- The connection handle `*gorm.DB`, kept abstract. -/
structure DB where
  ident : Nat
deriving DecidableEq, Repr

/-- Run-time faults. -/
inductive Panic where
  | nilDereference
deriving DecidableEq, Repr

/-- What a call of `NewDB` that returns leaves behind: the two returned values
(`none` for nil) and the backend open calls it made, in order. -/
structure NewDBResult where
  db : Option DB
  err : Option GoError
  opened : List Dialector
deriving DecidableEq, Repr

/-- The code after the `switch` in `NewDB`, applied to what `gorm.Open`
returned for dialector `d`. -/
def afterOpen (d : Dialector) (r : Option DB × Option GoError) : NewDBResult :=
  match r.2 with
  | some err =>
    { db := none, err := some (Errorf "failed to connect to database: %w" [.err err]),
      opened := [d] }
  | none => { db := r.1, err := none, opened := [d] }

/-- Model of `NewDB`. `gormOpen` stands for `gorm.Open(_, &gorm.Config{})`; the
argument is a pointer, `none` for nil, and reading `cfg.Database` through a
nil pointer faults. -/
def NewDB (gormOpen : Dialector → Option DB × Option GoError) (cfg : Option Config) :
    Except Panic NewDBResult :=
  match cfg with
  | none => .error .nilDereference
  | some cfg =>
    let dbCfg := cfg.Database
    if cfg.Database.Driver = "mysql" then
      let dsn := Sprintf "%s:%s@tcp(%s:%d)/%s?charset=utf8mb4&parseTime=True&loc=%s"
        [.str dbCfg.User, .str dbCfg.Password, .str dbCfg.Host, .int dbCfg.Port,
         .str dbCfg.DBName, .str dbCfg.TimeZone]
      .ok (afterOpen (.mysql dsn) (gormOpen (.mysql dsn)))
    else if cfg.Database.Driver = "postgres" then
      let dsn := Sprintf "host=%s user=%s password=%s dbname=%s port=%d sslmode=%s"
        [.str dbCfg.Host, .str dbCfg.User, .str dbCfg.Password, .str dbCfg.DBName,
         .int dbCfg.Port, .str dbCfg.SSLMode]
      .ok (afterOpen (.postgres dsn) (gormOpen (.postgres dsn)))
    else
      .ok { db := none, err := some (Errorf "unsupported database driver: %s" [.str dbCfg.Driver]),
            opened := [] }

/-- The backend open calls of a run of `NewDB` (none when it faulted). -/
def openedDialectors : Except Panic NewDBResult → List Dialector
  | .ok r => r.opened
  | .error _ => []

/-! ## Entry point (`cmd/server/main.go`) -/

/-- What a run of `main` leaves behind: the lines printed, and the fault that
ended it, if one did. -/
structure Run where
  stdout : List String
  fault : Option Panic
deriving DecidableEq, Repr

/-- Model of `main`. `describe` is the text `fmt.Println` prints for a
`*gorm.DB`. Both returned errors are discarded. -/
def main (viper : Provider) (reg : List ViperCall)
    (gormOpen : Dialector → Option DB × Option GoError) (describe : Option DB → String) : Run :=
  let out := ["主服务 Hello World"]
  let cfg := (LoadConfig viper reg).1
  match NewDB gormOpen cfg with
  | .error p => { stdout := out, fault := some p }
  | .ok r => { stdout := out ++ [describe r.db], fault := none }

/-! ## Notions used to state the properties -/

/-- Number of positions of `s` at which `pat` starts. -/
def occurrencesAux (pat : List Char) : List Char → Nat
  | [] => if pat = [] then 1 else 0
  | c :: s => (if pat.isPrefixOf (c :: s) then 1 else 0) + occurrencesAux pat s

/-- Number of occurrences of `pat` in `s` as a substring. -/
def occurrences (pat s : String) : Nat :=
  occurrencesAux pat.data s.data

/-- A backend whose open call always succeeds with handle `0`. -/
def okBackend : Dialector → Option DB × Option GoError :=
  fun _ => (some ⟨0⟩, none)

/-- A backend whose open call always fails with "connection refused". -/
def refusingBackend : Dialector → Option DB × Option GoError :=
  fun _ => (none, some (.foreign "connection refused"))

/-- A provider that finds no configuration file. -/
def absentFileProvider : Provider :=
  { ReadInConfig := fun _ => some (.configFileNotFound "Config File \"config\" Not Found"),
    Unmarshal := fun _ c => (c, none) }

/-- A provider whose file is not valid YAML. -/
def malformedFileProvider : Provider :=
  { ReadInConfig := fun _ => some (.foreign "yaml: line 3: mapping values are not allowed"),
    Unmarshal := fun _ c => (c, none) }

/-- A provider whose file reads but holds a port that is not a number. -/
def mistypedFileProvider : Provider :=
  { ReadInConfig := fun _ => none,
    Unmarshal := fun _ c => (c, some (.foreign "cannot parse 'Database.Port' as int")) }

/-- A provider that reads and decodes the given configuration. -/
def goodProvider (cfg : Config) : Provider :=
  { ReadInConfig := fun _ => none,
    Unmarshal := fun _ _ => (cfg, none) }

/-- A configuration with the given database section. -/
def configOf (d : DatabaseConfig) : Config :=
  { Server := { Address := ":8080" }, Database := d }

/-- The MySQL example of the specification. -/
def mysqlExample : DatabaseConfig :=
  { Driver := "mysql", Host := "127.0.0.1", Port := 3306, User := "u", Password := "p",
    DBName := "d", TimeZone := "UTC", SSLMode := "" }

/-- The Postgres example of the specification. -/
def postgresExample : DatabaseConfig :=
  { Driver := "postgres", Host := "127.0.0.1", Port := 5432, User := "u", Password := "p",
    DBName := "d", TimeZone := "", SSLMode := "disable" }

/-! ## Formatting lemmas -/

theorem Sprintf_mysql (u p h d t : String) (n : Int) :
    Sprintf "%s:%s@tcp(%s:%d)/%s?charset=utf8mb4&parseTime=True&loc=%s"
      [.str u, .str p, .str h, .int n, .str d, .str t]
    = u ++ ":" ++ p ++ "@tcp(" ++ h ++ ":" ++ decimal n ++ ")/" ++ d
        ++ "?charset=utf8mb4&parseTime=True&loc=" ++ t := by
  apply String.ext
  simp [Sprintf, sprintfAux, fmtVerb]

theorem Sprintf_postgres (h u p d s : String) (n : Int) :
    Sprintf "host=%s user=%s password=%s dbname=%s port=%d sslmode=%s"
      [.str h, .str u, .str p, .str d, .int n, .str s]
    = "host=" ++ h ++ " user=" ++ u ++ " password=" ++ p ++ " dbname=" ++ d
        ++ " port=" ++ decimal n ++ " sslmode=" ++ s := by
  apply String.ext
  simp [Sprintf, sprintfAux, fmtVerb]

theorem Errorf_unsupported (d : String) :
    Errorf "unsupported database driver: %s" [.str d]
      = .errorString ("unsupported database driver: " ++ d) := by
  have h : Sprintf "unsupported database driver: %s" [.str d]
      = "unsupported database driver: " ++ d := by
    apply String.ext
    simp [Sprintf, sprintfAux, fmtVerb]
  simp [Errorf, wrapOperand, h]

theorem Errorf_connect (e : GoError) :
    Errorf "failed to connect to database: %w" [.err e]
      = .wrapError ("failed to connect to database: " ++ e.Error) e := by
  have h : Sprintf "failed to connect to database: %w" [.err e]
      = "failed to connect to database: " ++ e.Error := by
    apply String.ext
    simp [Sprintf, sprintfAux, fmtVerb]
  simp [Errorf, wrapOperand, h]

theorem Errorf_read (e : GoError) :
    Errorf "error reading config file: %w" [.err e]
      = .wrapError ("error reading config file: " ++ e.Error) e := by
  have h : Sprintf "error reading config file: %w" [.err e]
      = "error reading config file: " ++ e.Error := by
    apply String.ext
    simp [Sprintf, sprintfAux, fmtVerb]
  simp [Errorf, wrapOperand, h]

theorem Errorf_decode (e : GoError) :
    Errorf "unable to decode config into struct: %w" [.err e]
      = .wrapError ("unable to decode config into struct: " ++ e.Error) e := by
  have h : Sprintf "unable to decode config into struct: %w" [.err e]
      = "unable to decode config into struct: " ++ e.Error := by
    apply String.ext
    simp [Sprintf, sprintfAux, fmtVerb]
  simp [Errorf, wrapOperand, h]

theorem Errorf_notFound :
    Errorf "config file not found at ./config/config.yaml" []
      = .errorString "config file not found at ./config/config.yaml" := by
  decide

/-- The run of `NewDB` on a configuration whose driver is `"mysql"`. -/
theorem NewDB_mysql (gormOpen : Dialector → Option DB × Option GoError) (c : Config)
    (h : c.Database.Driver = "mysql") :
    NewDB gormOpen (some c)
      = .ok (afterOpen
          (.mysql (c.Database.User ++ ":" ++ c.Database.Password ++ "@tcp(" ++ c.Database.Host
            ++ ":" ++ decimal c.Database.Port ++ ")/" ++ c.Database.DBName
            ++ "?charset=utf8mb4&parseTime=True&loc=" ++ c.Database.TimeZone))
          (gormOpen (.mysql (c.Database.User ++ ":" ++ c.Database.Password ++ "@tcp("
            ++ c.Database.Host ++ ":" ++ decimal c.Database.Port ++ ")/" ++ c.Database.DBName
            ++ "?charset=utf8mb4&parseTime=True&loc=" ++ c.Database.TimeZone)))) := by
  simp only [NewDB, h, if_true, Sprintf_mysql]

/-- The run of `NewDB` on a configuration whose driver is `"postgres"`. -/
theorem NewDB_postgres (gormOpen : Dialector → Option DB × Option GoError) (c : Config)
    (h : c.Database.Driver = "postgres") :
    NewDB gormOpen (some c)
      = .ok (afterOpen
          (.postgres ("host=" ++ c.Database.Host ++ " user=" ++ c.Database.User ++ " password="
            ++ c.Database.Password ++ " dbname=" ++ c.Database.DBName ++ " port="
            ++ decimal c.Database.Port ++ " sslmode=" ++ c.Database.SSLMode))
          (gormOpen (.postgres ("host=" ++ c.Database.Host ++ " user=" ++ c.Database.User
            ++ " password=" ++ c.Database.Password ++ " dbname=" ++ c.Database.DBName ++ " port="
            ++ decimal c.Database.Port ++ " sslmode=" ++ c.Database.SSLMode)))) := by
  have hne : ¬ ("postgres" = "mysql") := by decide
  simp only [NewDB, h, hne, if_true, if_false, Sprintf_postgres]

theorem afterOpen_opened (d : Dialector) (r : Option DB × Option GoError) :
    (afterOpen d r).opened = [d] := by
  unfold afterOpen
  split <;> rfl

/-! ## Properties of the connection factory -/

/-- C1: for a driver other than "mysql" and "postgres", `NewDB` returns a nil
handle and the error "unsupported database driver: " followed by the driver
value, and makes no backend open call (the trace of open calls is empty, so no
connection string reaches a backend). -/
theorem NewDB_unsupported_driver (gormOpen : Dialector → Option DB × Option GoError)
    (c : Config) (hm : c.Database.Driver ≠ "mysql") (hp : c.Database.Driver ≠ "postgres") :
    NewDB gormOpen (some c)
      = .ok { db := none,
              err := some (.errorString ("unsupported database driver: " ++ c.Database.Driver)),
              opened := [] } := by
  simp only [NewDB, hm, hp, if_false, Errorf_unsupported]

/-- Witness of C1 at the drivers "sqlite", the empty string and "MySQL". -/
theorem NewDB_unsupported_driver_witness :
    NewDB okBackend (some (configOf { mysqlExample with Driver := "sqlite" }))
        = .ok { db := none,
                err := some (.errorString ("unsupported database driver: " ++ "sqlite")),
                opened := [] }
    ∧ NewDB okBackend (some (configOf { mysqlExample with Driver := "" }))
        = .ok { db := none,
                err := some (.errorString ("unsupported database driver: " ++ "")),
                opened := [] }
    ∧ NewDB okBackend (some (configOf { mysqlExample with Driver := "MySQL" }))
        = .ok { db := none,
                err := some (.errorString ("unsupported database driver: " ++ "MySQL")),
                opened := [] } :=
  ⟨NewDB_unsupported_driver okBackend (configOf { mysqlExample with Driver := "sqlite" })
      (by decide) (by decide),
   NewDB_unsupported_driver okBackend (configOf { mysqlExample with Driver := "" })
      (by decide) (by decide),
   NewDB_unsupported_driver okBackend (configOf { mysqlExample with Driver := "MySQL" })
      (by decide) (by decide)⟩

/-- C2, as stated, fails: on the MySQL example the connection string passed to
the backend is not the one with `parseTime=true` in lower case. -/
theorem NewDB_mysql_dsn_lowercase_refuted :
    openedDialectors (NewDB okBackend (some (configOf mysqlExample)))
      ≠ [.mysql (mysqlExample.User ++ ":" ++ mysqlExample.Password ++ "@tcp("
          ++ mysqlExample.Host ++ ":" ++ decimal mysqlExample.Port ++ ")/" ++ mysqlExample.DBName
          ++ "?charset=utf8mb4&parseTime=true&loc=" ++ mysqlExample.TimeZone)] := by
  decide

/-- C2 (amended): for driver "mysql", exactly one backend open call is made,
to the MySQL backend, with the connection string
`User:Password@tcp(Host:Port)/DBName?charset=utf8mb4&parseTime=True&loc=TimeZone`
(`True` with a capital T). -/
theorem NewDB_mysql_dsn (gormOpen : Dialector → Option DB × Option GoError) (c : Config)
    (h : c.Database.Driver = "mysql") :
    openedDialectors (NewDB gormOpen (some c))
      = [.mysql (c.Database.User ++ ":" ++ c.Database.Password ++ "@tcp(" ++ c.Database.Host
          ++ ":" ++ decimal c.Database.Port ++ ")/" ++ c.Database.DBName
          ++ "?charset=utf8mb4&parseTime=True&loc=" ++ c.Database.TimeZone)] := by
  rw [NewDB_mysql gormOpen c h]
  exact afterOpen_opened _ _

/-- Witness of C2 (amended) at a configuration with a negative port. -/
theorem NewDB_mysql_dsn_witness :
    openedDialectors (NewDB refusingBackend (some (configOf
        { mysqlExample with User := "root", Password := "s3cret", Host := "db", Port := -7,
                            DBName := "shop", TimeZone := "Local" })))
      = [.mysql "root:s3cret@tcp(db:-7)/shop?charset=utf8mb4&parseTime=True&loc=Local"] :=
  NewDB_mysql_dsn refusingBackend _ (by decide)

/-- C3: on the MySQL example the connection string passed to the MySQL backend
is exactly `u:p@tcp(127.0.0.1:3306)/d?charset=utf8mb4&parseTime=True&loc=UTC`,
whatever the backend, the server address and the SSL mode are. -/
theorem NewDB_mysql_example (gormOpen : Dialector → Option DB × Option GoError)
    (addr ssl : String) :
    openedDialectors (NewDB gormOpen (some
        { Server := { Address := addr },
          Database := { Driver := "mysql", Host := "127.0.0.1", Port := 3306, User := "u",
                        Password := "p", DBName := "d", TimeZone := "UTC", SSLMode := ssl } }))
      = [.mysql "u:p@tcp(127.0.0.1:3306)/d?charset=utf8mb4&parseTime=True&loc=UTC"] := by
  rw [NewDB_mysql gormOpen _ rfl]
  simp only [openedDialectors, afterOpen_opened]
  decide

/-- C4: for driver "postgres", exactly one backend open call is made, to the
Postgres backend, with the connection string
`host=Host user=User password=Password dbname=DBName port=Port sslmode=SSLMode`;
for the values of the Postgres example it is
`host=127.0.0.1 user=u password=p dbname=d port=5432 sslmode=disable`. -/
theorem NewDB_postgres_dsn (gormOpen : Dialector → Option DB × Option GoError) (c : Config)
    (h : c.Database.Driver = "postgres") :
    openedDialectors (NewDB gormOpen (some c))
        = [.postgres ("host=" ++ c.Database.Host ++ " user=" ++ c.Database.User ++ " password="
            ++ c.Database.Password ++ " dbname=" ++ c.Database.DBName ++ " port="
            ++ decimal c.Database.Port ++ " sslmode=" ++ c.Database.SSLMode)]
    ∧ (c.Database.Host = "127.0.0.1" → c.Database.Port = 5432 → c.Database.User = "u" →
        c.Database.Password = "p" → c.Database.DBName = "d" → c.Database.SSLMode = "disable" →
        openedDialectors (NewDB gormOpen (some c))
          = [.postgres "host=127.0.0.1 user=u password=p dbname=d port=5432 sslmode=disable"]) := by
  have key : openedDialectors (NewDB gormOpen (some c))
        = [.postgres ("host=" ++ c.Database.Host ++ " user=" ++ c.Database.User ++ " password="
            ++ c.Database.Password ++ " dbname=" ++ c.Database.DBName ++ " port="
            ++ decimal c.Database.Port ++ " sslmode=" ++ c.Database.SSLMode)] := by
    rw [NewDB_postgres gormOpen c h]
    exact afterOpen_opened _ _
  refine ⟨key, ?_⟩
  intro hh hn hu hp hd hs
  rw [key, hh, hn, hu, hp, hd, hs]
  decide

/-- Witness of C4 at the Postgres example. -/
theorem NewDB_postgres_dsn_witness :
    openedDialectors (NewDB okBackend (some (configOf postgresExample)))
      = [.postgres "host=127.0.0.1 user=u password=p dbname=d port=5432 sslmode=disable"] :=
  (NewDB_postgres_dsn okBackend (configOf postgresExample) (by decide)).2
    (by decide) (by decide) (by decide) (by decide) (by decide) (by decide)

theorem occurrencesAux_nil_pos (s : List Char) : 1 ≤ occurrencesAux [] s := by
  cases s with
  | nil => simp [occurrencesAux]
  | cons c s => simp [occurrencesAux, List.isPrefixOf]

theorem occurrencesAux_prefix_pos (pat b : List Char) : 1 ≤ occurrencesAux pat (pat ++ b) := by
  cases pat with
  | nil => exact occurrencesAux_nil_pos _
  | cons p ps =>
    have hpre : (p :: ps).isPrefixOf (p :: (ps ++ b)) = true := by
      rw [List.isPrefixOf_iff_prefix]
      exact ⟨b, rfl⟩
    show 1 ≤ occurrencesAux (p :: ps) (p :: (ps ++ b))
    simp only [occurrencesAux, hpre, if_true]
    omega

theorem occurrencesAux_infix_pos (a pat b : List Char) :
    1 ≤ occurrencesAux pat (a ++ (pat ++ b)) := by
  induction a with
  | nil => exact occurrencesAux_prefix_pos pat b
  | cons c a ih =>
    show 1 ≤ occurrencesAux pat (c :: (a ++ (pat ++ b)))
    simp only [occurrencesAux]
    omega

/-- A string occurs in every string built by putting text before and after it. -/
theorem occurrences_infix_pos (a pat b : String) : 1 ≤ occurrences pat (a ++ pat ++ b) := by
  unfold occurrences
  have h : (a ++ pat ++ b).data = a.data ++ (pat.data ++ b.data) := by
    simp [String.data_append]
  rw [h]
  exact occurrencesAux_infix_pos _ _ _

/-- C5, as stated, fails: with user "app" and database name "app" the MySQL
connection string is `app:pw@tcp(db:3306)/app?...`, in which the user value
occurs twice as a substring. -/
theorem NewDB_dsn_exactly_once_refuted :
    openedDialectors (NewDB okBackend (some (configOf
        { mysqlExample with User := "app", Password := "pw", Host := "db", DBName := "app" })))
      = [.mysql "app:pw@tcp(db:3306)/app?charset=utf8mb4&parseTime=True&loc=UTC"]
    ∧ occurrences "app" "app:pw@tcp(db:3306)/app?charset=utf8mb4&parseTime=True&loc=UTC" = 2 := by
  decide

/-- C5 (amended): for a supported driver, exactly one connection string is
passed to a backend; each of User, Password, Host, Port (in decimal) and DBName
occurs in it as a substring, and its length is the length of the fixed text
(45 characters for MySQL, 44 for Postgres) plus the length of each field value
counted once (with TimeZone for MySQL, SSLMode for Postgres). -/
theorem NewDB_dsn_fields (gormOpen : Dialector → Option DB × Option GoError) (c : Config)
    (h : c.Database.Driver = "mysql" ∨ c.Database.Driver = "postgres") :
    ∃ dsn : String,
      (openedDialectors (NewDB gormOpen (some c))).map Dialector.dsn = [dsn]
      ∧ 1 ≤ occurrences c.Database.User dsn
      ∧ 1 ≤ occurrences c.Database.Password dsn
      ∧ 1 ≤ occurrences c.Database.Host dsn
      ∧ 1 ≤ occurrences (decimal c.Database.Port) dsn
      ∧ 1 ≤ occurrences c.Database.DBName dsn
      ∧ dsn.length
          = (if c.Database.Driver = "mysql" then 45 + c.Database.TimeZone.length
             else 44 + c.Database.SSLMode.length)
            + c.Database.User.length + c.Database.Password.length + c.Database.Host.length
            + (decimal c.Database.Port).length + c.Database.DBName.length := by
  rcases h with h | h
  · refine ⟨_, by rw [NewDB_mysql_dsn gormOpen c h]; rfl, ?_, ?_, ?_, ?_, ?_, ?_⟩
    · have := occurrences_infix_pos "" c.Database.User
        (":" ++ c.Database.Password ++ "@tcp(" ++ c.Database.Host
          ++ ":" ++ decimal c.Database.Port ++ ")/" ++ c.Database.DBName
          ++ "?charset=utf8mb4&parseTime=True&loc=" ++ c.Database.TimeZone)
      simpa [String.append_assoc] using this
    · have := occurrences_infix_pos (c.Database.User ++ ":") c.Database.Password
        ("@tcp(" ++ c.Database.Host
          ++ ":" ++ decimal c.Database.Port ++ ")/" ++ c.Database.DBName
          ++ "?charset=utf8mb4&parseTime=True&loc=" ++ c.Database.TimeZone)
      simpa [String.append_assoc] using this
    · have := occurrences_infix_pos (c.Database.User ++ ":" ++ c.Database.Password ++ "@tcp(")
        c.Database.Host
        (":" ++ decimal c.Database.Port ++ ")/" ++ c.Database.DBName
          ++ "?charset=utf8mb4&parseTime=True&loc=" ++ c.Database.TimeZone)
      simpa [String.append_assoc] using this
    · have := occurrences_infix_pos
        (c.Database.User ++ ":" ++ c.Database.Password ++ "@tcp(" ++ c.Database.Host ++ ":")
        (decimal c.Database.Port)
        (")/" ++ c.Database.DBName
          ++ "?charset=utf8mb4&parseTime=True&loc=" ++ c.Database.TimeZone)
      simpa [String.append_assoc] using this
    · have := occurrences_infix_pos
        (c.Database.User ++ ":" ++ c.Database.Password ++ "@tcp(" ++ c.Database.Host ++ ":"
          ++ decimal c.Database.Port ++ ")/")
        c.Database.DBName
        ("?charset=utf8mb4&parseTime=True&loc=" ++ c.Database.TimeZone)
      simpa [String.append_assoc] using this
    · simp only [Dialector.dsn, h, if_true, String.length_append]
      have e1 : ":".length = 1 := by decide
      have e2 : "@tcp(".length = 5 := by decide
      have e3 : ")/".length = 2 := by decide
      have e4 : "?charset=utf8mb4&parseTime=True&loc=".length = 36 := by decide
      omega
  · have hne : ¬ (c.Database.Driver = "mysql") := by rw [h]; decide
    refine ⟨_, by rw [(NewDB_postgres_dsn gormOpen c h).1]; rfl, ?_, ?_, ?_, ?_, ?_, ?_⟩
    · have := occurrences_infix_pos ("host=" ++ c.Database.Host ++ " user=") c.Database.User
        (" password=" ++ c.Database.Password ++ " dbname=" ++ c.Database.DBName ++ " port="
            ++ decimal c.Database.Port ++ " sslmode=" ++ c.Database.SSLMode)
      simpa [String.append_assoc] using this
    · have := occurrences_infix_pos
        ("host=" ++ c.Database.Host ++ " user=" ++ c.Database.User ++ " password=")
        c.Database.Password
        (" dbname=" ++ c.Database.DBName ++ " port="
            ++ decimal c.Database.Port ++ " sslmode=" ++ c.Database.SSLMode)
      simpa [String.append_assoc] using this
    · have := occurrences_infix_pos "host=" c.Database.Host
        (" user=" ++ c.Database.User ++ " password=" ++ c.Database.Password ++ " dbname="
            ++ c.Database.DBName ++ " port="
            ++ decimal c.Database.Port ++ " sslmode=" ++ c.Database.SSLMode)
      simpa [String.append_assoc] using this
    · have := occurrences_infix_pos
        ("host=" ++ c.Database.Host ++ " user=" ++ c.Database.User ++ " password="
          ++ c.Database.Password ++ " dbname=" ++ c.Database.DBName ++ " port=")
        (decimal c.Database.Port)
        (" sslmode=" ++ c.Database.SSLMode)
      simpa [String.append_assoc] using this
    · have := occurrences_infix_pos
        ("host=" ++ c.Database.Host ++ " user=" ++ c.Database.User ++ " password="
          ++ c.Database.Password ++ " dbname=")
        c.Database.DBName
        (" port=" ++ decimal c.Database.Port ++ " sslmode=" ++ c.Database.SSLMode)
      simpa [String.append_assoc] using this
    · simp only [Dialector.dsn, hne, if_false, String.length_append]
      have e1 : "host=".length = 5 := by decide
      have e2 : " user=".length = 6 := by decide
      have e3 : " password=".length = 10 := by decide
      have e4 : " dbname=".length = 8 := by decide
      have e5 : " port=".length = 6 := by decide
      have e6 : " sslmode=".length = 9 := by decide
      omega

/-- Witness of C5 (amended) at the configuration of the counterexample. -/
theorem NewDB_dsn_fields_witness :
    ∃ dsn : String,
      (openedDialectors (NewDB okBackend (some (configOf
        { mysqlExample with User := "app", Password := "pw", Host := "db",
                            DBName := "app" })))).map Dialector.dsn = [dsn]
      ∧ 1 ≤ occurrences "app" dsn
      ∧ 1 ≤ occurrences "pw" dsn
      ∧ 1 ≤ occurrences "db" dsn
      ∧ 1 ≤ occurrences (decimal 3306) dsn
      ∧ 1 ≤ occurrences "app" dsn
      ∧ dsn.length = (if "mysql" = "mysql" then 45 + "UTC".length else 44 + "".length)
            + "app".length + "pw".length + "db".length + (decimal 3306).length + "app".length :=
  NewDB_dsn_fields okBackend
    (configOf { mysqlExample with User := "app", Password := "pw", Host := "db", DBName := "app" })
    (Or.inl (by decide))

theorem afterOpen_error (d : Dialector) (r : Option DB × Option GoError) (e : GoError)
    (h : r.2 = some e) :
    afterOpen d r
      = { db := none,
          err := some (.wrapError ("failed to connect to database: " ++ e.Error) e),
          opened := [d] } := by
  simp only [afterOpen, h, Errorf_connect]

theorem afterOpen_success (d : Dialector) (hd : DB) :
    afterOpen d (some hd, none) = { db := some hd, err := none, opened := [d] } := rfl

/-- C6: for a supported driver, `NewDB` makes exactly one backend open call
`d`; if that call returns an error `e`, `NewDB` returns a nil handle and the
error "failed to connect to database: " followed by `e`'s message, with cause
`e`; if it returns handle `hd` and no error, `NewDB` returns `hd` and a nil
error. -/
theorem NewDB_backend_outcome (gormOpen : Dialector → Option DB × Option GoError) (c : Config)
    (h : c.Database.Driver = "mysql" ∨ c.Database.Driver = "postgres") :
    ∃ d : Dialector,
      openedDialectors (NewDB gormOpen (some c)) = [d]
      ∧ (∀ e : GoError, (gormOpen d).2 = some e →
          NewDB gormOpen (some c)
            = .ok { db := none,
                    err := some (.wrapError ("failed to connect to database: " ++ e.Error) e),
                    opened := [d] })
      ∧ (∀ hd : DB, gormOpen d = (some hd, none) →
          NewDB gormOpen (some c) = .ok { db := some hd, err := none, opened := [d] }) := by
  rcases h with h | h
  · refine ⟨_, NewDB_mysql_dsn gormOpen c h, ?_, ?_⟩
    · intro e he
      rw [NewDB_mysql gormOpen c h, afterOpen_error _ _ e he]
    · intro hd he
      rw [NewDB_mysql gormOpen c h, he, afterOpen_success]
  · refine ⟨_, (NewDB_postgres_dsn gormOpen c h).1, ?_, ?_⟩
    · intro e he
      rw [NewDB_postgres gormOpen c h, afterOpen_error _ _ e he]
    · intro hd he
      rw [NewDB_postgres gormOpen c h, he, afterOpen_success]

/-- Witness of C6: the Postgres example against a backend that refuses, and
the MySQL example against a backend that succeeds. -/
theorem NewDB_backend_outcome_witness :
    NewDB refusingBackend (some (configOf postgresExample))
        = .ok { db := none,
                err := some (.wrapError "failed to connect to database: connection refused"
                        (.foreign "connection refused")),
                opened := [.postgres
                  "host=127.0.0.1 user=u password=p dbname=d port=5432 sslmode=disable"] }
    ∧ NewDB okBackend (some (configOf mysqlExample))
        = .ok { db := some ⟨0⟩, err := none,
                opened := [.mysql
                  "u:p@tcp(127.0.0.1:3306)/d?charset=utf8mb4&parseTime=True&loc=UTC"] } := by
  constructor
  · obtain ⟨d, hd, hfail, _⟩ :=
      NewDB_backend_outcome refusingBackend (configOf postgresExample) (Or.inr (by decide))
    have hd2 : openedDialectors (NewDB refusingBackend (some (configOf postgresExample)))
        = [.postgres "host=127.0.0.1 user=u password=p dbname=d port=5432 sslmode=disable"] := by
      decide
    rw [hd2] at hd
    have hd3 : d = .postgres "host=127.0.0.1 user=u password=p dbname=d port=5432 sslmode=disable" := by
      simpa using hd.symm
    subst hd3
    exact hfail (.foreign "connection refused") rfl
  · obtain ⟨d, hd, _, hok⟩ :=
      NewDB_backend_outcome okBackend (configOf mysqlExample) (Or.inl (by decide))
    have hd2 : openedDialectors (NewDB okBackend (some (configOf mysqlExample)))
        = [.mysql "u:p@tcp(127.0.0.1:3306)/d?charset=utf8mb4&parseTime=True&loc=UTC"] := by
      decide
    rw [hd2] at hd
    have hd3 : d = .mysql "u:p@tcp(127.0.0.1:3306)/d?charset=utf8mb4&parseTime=True&loc=UTC" := by
      simpa using hd.symm
    subst hd3
    exact hok ⟨0⟩ rfl

/-- C7: two "mysql" configurations that agree on User, Password, Host, Port,
DBName and TimeZone make the same backend open call with the same connection
string, whatever their SSLMode values are; two "postgres" configurations that
agree on Host, User, Password, DBName, Port and SSLMode make the same backend
open call with the same connection string, whatever their TimeZone values
are. -/
theorem NewDB_unused_field_irrelevant
    (g₁ g₂ : Dialector → Option DB × Option GoError) (c₁ c₂ : Config) :
    (c₁.Database.Driver = "mysql" → c₂.Database.Driver = "mysql" →
      c₁.Database.User = c₂.Database.User → c₁.Database.Password = c₂.Database.Password →
      c₁.Database.Host = c₂.Database.Host → c₁.Database.Port = c₂.Database.Port →
      c₁.Database.DBName = c₂.Database.DBName → c₁.Database.TimeZone = c₂.Database.TimeZone →
      openedDialectors (NewDB g₁ (some c₁)) = openedDialectors (NewDB g₂ (some c₂)))
    ∧ (c₁.Database.Driver = "postgres" → c₂.Database.Driver = "postgres" →
      c₁.Database.Host = c₂.Database.Host → c₁.Database.User = c₂.Database.User →
      c₁.Database.Password = c₂.Database.Password → c₁.Database.DBName = c₂.Database.DBName →
      c₁.Database.Port = c₂.Database.Port → c₁.Database.SSLMode = c₂.Database.SSLMode →
      openedDialectors (NewDB g₁ (some c₁)) = openedDialectors (NewDB g₂ (some c₂))) := by
  constructor
  · intro h₁ h₂ hu hp hh hn hd ht
    rw [NewDB_mysql_dsn g₁ c₁ h₁, NewDB_mysql_dsn g₂ c₂ h₂, hu, hp, hh, hn, hd, ht]
  · intro h₁ h₂ hh hu hp hd hn hs
    rw [(NewDB_postgres_dsn g₁ c₁ h₁).1, (NewDB_postgres_dsn g₂ c₂ h₂).1, hh, hu, hp, hd, hn, hs]

/-- Witness of C7: the MySQL example with SSLMode "require" against SSLMode
empty, and the Postgres example with TimeZone "Asia/Shanghai" against TimeZone
empty. -/
theorem NewDB_unused_field_irrelevant_witness :
    openedDialectors (NewDB okBackend (some (configOf { mysqlExample with SSLMode := "require" })))
        = openedDialectors (NewDB refusingBackend (some (configOf mysqlExample)))
    ∧ openedDialectors (NewDB okBackend
          (some (configOf { postgresExample with TimeZone := "Asia/Shanghai" })))
        = openedDialectors (NewDB refusingBackend (some (configOf postgresExample))) :=
  ⟨(NewDB_unused_field_irrelevant okBackend refusingBackend
      (configOf { mysqlExample with SSLMode := "require" }) (configOf mysqlExample)).1
      (by decide) (by decide) (by decide) (by decide) (by decide) (by decide) (by decide)
      (by decide),
   (NewDB_unused_field_irrelevant okBackend refusingBackend
      (configOf { postgresExample with TimeZone := "Asia/Shanghai" })
      (configOf postgresExample)).2
      (by decide) (by decide) (by decide) (by decide) (by decide) (by decide) (by decide)
      (by decide)⟩

/-! ## Properties of the configuration loader -/

/-- C8: `LoadConfig` returns a configuration exactly when the provider's read
and decode both succeed; otherwise it returns nil and an error: the message
"config file not found at ./config/config.yaml" when the read reports an absent
file, "error reading config file: " followed by the read error's message, with
that error as cause, for any other read failure, and
"unable to decode config into struct: " followed by the decode error's message,
with that error as cause, when the decode fails. -/
theorem LoadConfig_outcomes (viper : Provider) (reg : List ViperCall) :
    ((LoadConfig viper reg).1.isSome = true ↔
        (viper.ReadInConfig (reg ++ registryCalls) = none
          ∧ (viper.Unmarshal (reg ++ registryCalls) Config.zero).2 = none))
    ∧ (viper.ReadInConfig (reg ++ registryCalls) = none →
        (viper.Unmarshal (reg ++ registryCalls) Config.zero).2 = none →
        LoadConfig viper reg
          = (some (viper.Unmarshal (reg ++ registryCalls) Config.zero).1, none))
    ∧ (¬ (viper.ReadInConfig (reg ++ registryCalls) = none
          ∧ (viper.Unmarshal (reg ++ registryCalls) Config.zero).2 = none) →
        (LoadConfig viper reg).1 = none ∧ (LoadConfig viper reg).2.isSome = true)
    ∧ (∀ e : GoError, viper.ReadInConfig (reg ++ registryCalls) = some e →
        isConfigFileNotFound e = true →
        LoadConfig viper reg
          = (none, some (.errorString "config file not found at ./config/config.yaml")))
    ∧ (∀ e : GoError, viper.ReadInConfig (reg ++ registryCalls) = some e →
        isConfigFileNotFound e = false →
        LoadConfig viper reg
          = (none, some (.wrapError ("error reading config file: " ++ e.Error) e)))
    ∧ (∀ e : GoError, viper.ReadInConfig (reg ++ registryCalls) = none →
        (viper.Unmarshal (reg ++ registryCalls) Config.zero).2 = some e →
        LoadConfig viper reg
          = (none, some (.wrapError ("unable to decode config into struct: " ++ e.Error) e))) := by
  simp only [LoadConfig]
  cases hr : viper.ReadInConfig (reg ++ registryCalls) with
  | some e =>
    cases hnf : isConfigFileNotFound e <;>
      simp [hnf, Errorf_read, Errorf_notFound]
  | none =>
    rcases hu : viper.Unmarshal (reg ++ registryCalls) Config.zero with ⟨cfg, err⟩
    cases err with
    | some e => simp [Errorf_decode]
    | none => simp

/-- Witness of C8: the four outcomes, on a provider without a file, one with a
malformed file, one with a mistyped file, and one that decodes the MySQL
example. -/
theorem LoadConfig_outcomes_witness :
    LoadConfig absentFileProvider []
        = (none, some (.errorString "config file not found at ./config/config.yaml"))
    ∧ LoadConfig malformedFileProvider []
        = (none, some (.wrapError
            ("error reading config file: "
              ++ (GoError.foreign "yaml: line 3: mapping values are not allowed").Error)
            (.foreign "yaml: line 3: mapping values are not allowed")))
    ∧ LoadConfig mistypedFileProvider []
        = (none, some (.wrapError
            ("unable to decode config into struct: "
              ++ (GoError.foreign "cannot parse 'Database.Port' as int").Error)
            (.foreign "cannot parse 'Database.Port' as int")))
    ∧ LoadConfig (goodProvider (configOf mysqlExample)) []
        = (some ((goodProvider (configOf mysqlExample)).Unmarshal ([] ++ registryCalls)
            Config.zero).1, none) :=
  ⟨(LoadConfig_outcomes absentFileProvider []).2.2.2.1 _ rfl rfl,
   (LoadConfig_outcomes malformedFileProvider []).2.2.2.2.1 _ rfl rfl,
   (LoadConfig_outcomes mistypedFileProvider []).2.2.2.2.2 _ rfl rfl,
   (LoadConfig_outcomes (goodProvider (configOf mysqlExample)) []).2.1 rfl rfl⟩

/-! ## The entry point -/

/-- C10 fails on the code: when the provider finds no configuration file,
`LoadConfig` returns a nil configuration, `NewDB` faults on it, and the run of
`main` ends after the banner, before the handle is printed. -/
theorem main_faults_without_config (reg : List ViperCall)
    (gormOpen : Dialector → Option DB × Option GoError) (describe : Option DB → String) :
    (LoadConfig absentFileProvider reg).1 = none
    ∧ NewDB gormOpen (LoadConfig absentFileProvider reg).1 = .error .nilDereference
    ∧ main absentFileProvider reg gormOpen describe
        = { stdout := ["主服务 Hello World"], fault := some .nilDereference } := by
  have h : (LoadConfig absentFileProvider reg).1 = none := by
    simp [LoadConfig, absentFileProvider, isConfigFileNotFound]
  refine ⟨h, ?_, ?_⟩
  · rw [h]; rfl
  · simp only [main, h, NewDB]

/-- Whenever the loader returns a configuration, `main` runs to its end and
prints the banner and then the handle's description. -/
theorem main_prints_with_config (viper : Provider) (reg : List ViperCall)
    (gormOpen : Dialector → Option DB × Option GoError) (describe : Option DB → String)
    (c : Config) (h : (LoadConfig viper reg).1 = some c) :
    ∃ r : NewDBResult, NewDB gormOpen (some c) = .ok r
      ∧ main viper reg gormOpen describe
          = { stdout := ["主服务 Hello World", describe r.db], fault := none } := by
  have hr : ∃ r : NewDBResult, NewDB gormOpen (some c) = .ok r := by
    simp only [NewDB]
    split
    · exact ⟨_, rfl⟩
    · split
      · exact ⟨_, rfl⟩
      · exact ⟨_, rfl⟩
  obtain ⟨r, hr⟩ := hr
  refine ⟨r, hr, ?_⟩
  simp only [main, h, hr, List.cons_append, List.nil_append]

end GoWebTemplate
